import Mathlib

/-!
Verification of the ModularSensors variable-array orchestration
(`src/src/VariableArray.h`) and of the logger's epoch/interval constants
(`src/src/LoggerBase.h`), as a shallow embedding in Lean.

Modelling conventions:
* A `Variable` carries exactly the data the orchestration code reads through a
  variable handle: the parent sensor's name and location strings and the
  variable's current value rendered as text.
* Sensor operations (`setup`, `sleep`, `wake`, `update`) and the variable's own
  attach step are external collaborators; their results are supplied as oracle
  functions indexed by the variable's position in the array.  Each member
  function returns, beside the boolean the C++ function returns, the list of
  positions (for `setup`, position/attempt pairs) at which the underlying
  external call was issued, so that call-counting properties can be stated.
* `uint8_t` is modelled as `Nat` together with the explicit `% 256` reduction
  performed by the C++ integer conversion in `init`.
-/

set_option maxRecDepth 4000

/-- A measured-variable handle, flattened with its parent sensor's identifying
data: the code only ever reads `parentSensor->getSensorName()`,
`parentSensor->getSensorLocation()` and `getValueString()` through it. -/
structure Variable where
  sensorName : String
  sensorLocation : String
  valueString : String
deriving DecidableEq

instance : Inhabited Variable := ⟨⟨"", "", ""⟩⟩

/-- The (name, location) pair that identifies a physical sensor
(two handles with equal pairs denote the same sensor). -/
def sensorPair (v : Variable) : String × String := (v.sensorName, v.sensorLocation)

/-- The fields of class `VariableArray` (`VariableArray.h`, lines 220-221):
`uint8_t _variableCount; Variable **_variableList;`. -/
structure VariableArray where
  _variableCount : Nat
  _variableList : List Variable

/-- `init` (`VariableArray.h`, lines 22-29): `_variableCount = variableCount;`
stores an `int` into a `uint8_t` field, which the C++ conversion reduces
modulo 2^8; `_variableList` is stored unchanged. -/
def VariableArray.init (variableCount : Int) (variableList : List Variable) : VariableArray :=
  ⟨(variableCount % 256).toNat, variableList⟩

/-- A variable array as produced by `init` in the well-formed case: the stored
count equals the true length of the caller's list (fewer than 256 variables). -/
def VariableArray.ofList (l : List Variable) : VariableArray := ⟨l.length, l⟩

/-- The raw array read `_variableList[i]`.  The loops of the class only ever
index below `_variableCount`; an out-of-range read returns the default
variable. -/
def VariableArray.var (a : VariableArray) (i : Nat) : Variable :=
  a._variableList.getD i default

/-- `getVariableCount` (`VariableArray.h`, line 33): returns `_variableCount`. -/
def VariableArray.getVariableCount (a : VariableArray) : Nat := a._variableCount

/-- `isLastVarFromSensor` (`VariableArray.h`, lines 185-218): reads the sensor
name and location of the variable at `arrayIndex`, then scans the indices
`j = arrayIndex + 1, …, _variableCount - 1`; the result is `unique`, which the
loop clears as soon as some later variable has the same name and location. -/
def VariableArray.isLastVarFromSensor (a : VariableArray) (arrayIndex : Nat) : Bool :=
  let sensName := (a.var arrayIndex).sensorName
  let sensLoc := (a.var arrayIndex).sensorLocation
  (List.range' (arrayIndex + 1) (a._variableCount - (arrayIndex + 1))).all fun j =>
    !(sensName == (a.var j).sensorName && sensLoc == (a.var j).sensorLocation)

/-- `getSensorCount` (`VariableArray.h`, lines 36-45): `numSensors` starts at 1
and is incremented once for every index at which `isLastVarFromSensor` holds. -/
def VariableArray.getSensorCount (a : VariableArray) : Nat :=
  (List.range a._variableCount).foldl
    (fun numSensors i => if a.isLastVarFromSensor i then numSensors + 1 else numSensors) 1

/-- The `while (setupTries < 5)` loop inside `setupSensors` (`VariableArray.h`,
lines 61-73).  `out k` is the result of the (k+1)-th `parentSensor->setup()`
call issued by this execution of the loop; on success the loop breaks leaving
`setupTries` unchanged, on failure it stores the failed result in
`sensorSuccess` and increments `setupTries`.  When the guard fails at entry the
loop body never runs and `sensorSuccess` keeps the value it had before the
loop.  The loop body runs at most `5 - setupTries` times (the guard requires
`setupTries < 5` and every non-breaking iteration increments it), so a
structural fuel of 5 never truncates the loop; it only bounds the recursion. -/
def setupWhile (out : Nat → Bool) : Nat → Bool → Nat → Nat → Bool × Nat × Nat
  | 0, sensorSuccess, setupTries, k => (sensorSuccess, setupTries, k)
  | fuel + 1, sensorSuccess, setupTries, k =>
    if setupTries < 5 then
      let sensorSuccess := out k
      if sensorSuccess then (sensorSuccess, setupTries, k + 1)
      else setupWhile out fuel sensorSuccess (setupTries + 1) (k + 1)
    else (sensorSuccess, setupTries, k)

/-- `setupSensors` (`VariableArray.h`, lines 49-92).
`out i k` is the result of the (k+1)-th `parentSensor->setup()` call issued
while the first loop is at index `i`; `attach i` is the result of
`_variableList[i]->setup()` in the second loop.  The state threaded through the
first loop is `(success, sensorSuccess, setupTries, setup-call log)`, with
`success = true`, `sensorSuccess = false`, `setupTries = 0` before the loop,
exactly as in the source; note the source never resets `sensorSuccess` or
`setupTries` between iterations of the outer loop.  Returns the boolean result
together with the log of sensor-setup calls (as position/attempt pairs) and the
log of attach calls (one per index of the second loop). -/
def VariableArray.setupSensors (a : VariableArray) (out : Nat → Nat → Bool)
    (attach : Nat → Bool) : Bool × List (Nat × Nat) × List Nat :=
  let first := (List.range a._variableCount).foldl
    (fun (st : Bool × Bool × Nat × List (Nat × Nat)) i =>
      let w := setupWhile (out i) 5 st.2.1 st.2.2.1 0
      (st.1 && w.1, w.1, w.2.1, st.2.2.2 ++ (List.range w.2.2).map fun c => (i, c)))
    (true, false, 0, [])
  let success := (List.range a._variableCount).foldl (fun s i => s && attach i) first.1
  (success, first.2.2.2, List.range a._variableCount)

/-- `sensorsSleep` (`VariableArray.h`, lines 95-105): `success` starts `true`;
for every index at which `isLastVarFromSensor` holds the loop executes
`success &= parentSensor->sleep()`.  `sleepResult i` is the result of the call
issued at index `i`; the second component logs the indices at which the call
was issued. -/
def VariableArray.sensorsSleep (a : VariableArray) (sleepResult : Nat → Bool) :
    Bool × List Nat :=
  (List.range a._variableCount).foldl
    (fun st i =>
      if a.isLastVarFromSensor i then (st.1 && sleepResult i, st.2 ++ [i]) else st)
    (true, [])

/-- `sensorsWake` (`VariableArray.h`, lines 108-118): identical loop shape to
`sensorsSleep` with `parentSensor->wake()` as the underlying call. -/
def VariableArray.sensorsWake (a : VariableArray) (wakeResult : Nat → Bool) :
    Bool × List Nat :=
  (List.range a._variableCount).foldl
    (fun st i =>
      if a.isLastVarFromSensor i then (st.1 && wakeResult i, st.2 ++ [i]) else st)
    (true, [])

/-- `updateAllSensors` (`VariableArray.h`, lines 121-144): `success` and
`update_success` both start `true`; for every index at which
`isLastVarFromSensor` holds the loop overwrites `update_success` with the
result of `parentSensor->update()`; after the loop the function executes
`success &= update_success` and returns `success`.  `updateResult i` is the
result of the call issued at index `i`; the second component logs the indices
at which the call was issued. -/
def VariableArray.updateAllSensors (a : VariableArray) (updateResult : Nat → Bool) :
    Bool × List Nat :=
  let st := (List.range a._variableCount).foldl
    (fun (st : Bool × Bool × List Nat) i =>
      if a.isLastVarFromSensor i then (st.1, updateResult i, st.2.2 ++ [i]) else st)
    (true, true, [])
  (st.1 && st.2.1, st.2.2)

/-- `generateSensorDataCSV` (`VariableArray.h`, lines 167-181): starting from
the empty string, append `getValueString()` of every variable in order and
append `", "` after it whenever `i + 1 != _variableCount`. -/
def VariableArray.generateSensorDataCSV (a : VariableArray) : String :=
  (List.range a._variableCount).foldl
    (fun csvString i =>
      let csvString := csvString ++ (a.var i).valueString
      if i + 1 ≠ a._variableCount then csvString ++ ", " else csvString)
    ""

/-- The comma-space serialization as the spec words it (§4.2,
`serializeValuesCSV`): every field in order, `", "` between consecutive fields,
no trailing separator, empty string for no fields.  Used as the specification
side of the refinement claim about `generateSensorDataCSV`. -/
def serializeValuesCSVSpec : List String → String
  | [] => ""
  | s :: rest => s ++ (if rest = [] then "" else ", " ++ serializeValuesCSVSpec rest)

/-- `EPOCH_TIME_OFF` (`LoggerBase.h`, line 32): the constant the logger adds to
the RTC's year-2000-based timestamps, `946684800`, documented in the source as
"2000-jan-01 00:00:00 in epoch time". -/
def EPOCH_TIME_OFF : Nat := 946684800

/-- Gregorian leap-year test, used to count the days between the 1970 and 2000
epochs. -/
def isLeapYear (y : Nat) : Bool := (y % 4 == 0 && y % 100 != 0) || y % 400 == 0

/-- The number of seconds from 1970-01-01 00:00:00 to 2000-01-01 00:00:00:
86400 seconds for each day of the years 1970 … 1999. -/
def secondsFrom1970To2000 : Nat :=
  86400 * (((List.range 30).map fun k => if isLeapYear (1970 + k) then 366 else 365).sum)

/-- Modelled from the spec: the body of `getNowEpoch` is not under `src/`
(`LoggerBase.h` only declares it).  Following §4.3 and the declaration's
comment, the corrected epoch adds `EPOCH_TIME_OFF` to the RTC's
year-2000-based seconds and applies both the logging timezone and the RTC
offset (whole hours) before any interval test. -/
def getNowEpoch (rtcEpochSecondsY2K : Nat) (timeZone tzOffset : Int) : Int :=
  (rtcEpochSecondsY2K : Int) + (EPOCH_TIME_OFF : Int) + timeZone * 3600 + tzOffset * 3600

/-- Modelled from the spec: the body of `checkInterval` is not under `src/`
(`LoggerBase.h`, lines 94-96, only declares it).  Following §4.3: true iff the
current corrected epoch time is an even multiple of the logging interval (in
seconds), or the current time is still within the first 15 minutes since
logging started. -/
def checkInterval (currentEpoch : Int) (loggingIntervalMinutes : Nat)
    (startEpoch : Int) : Bool :=
  decide (currentEpoch % ((loggingIntervalMinutes : Int) * 60) = 0) ||
    decide (currentEpoch - startEpoch < 15 * 60)

/-- Modelled from the spec: the body of `checkMarkedInterval` is not under
`src/` (`LoggerBase.h`, lines 98-100, only declares it).  Following §4.3: same
as `checkInterval` with the marked timestamp in place of the current one in the
modulo test, while the 15-minute grace window still looks at the current
time. -/
def checkMarkedInterval (markedEpoch currentEpoch : Int)
    (loggingIntervalMinutes : Nat) (startEpoch : Int) : Bool :=
  decide (markedEpoch % ((loggingIntervalMinutes : Int) * 60) = 0) ||
    decide (currentEpoch - startEpoch < 15 * 60)

/-- The list of canonical indices of `l`: the positions at which
`isLastVarFromSensor` holds in the well-formed array over `l`. -/
def canonIdx (l : List Variable) : List Nat :=
  (List.range l.length).filter fun i => (VariableArray.ofList l).isLastVarFromSensor i

/-- The identifying pairs of the canonical indices of `l`, in position order. -/
def canonPairs (l : List Variable) : List (String × String) :=
  (canonIdx l).map fun i => sensorPair (l.getD i default)

/-! ### Helper lemmas: the deduplicator -/

lemma bool_eq_of_iff {a b : Bool} (h : a = true ↔ b = true) : a = b := by
  cases a <;> cases b <;> simp_all

lemma ofList_count (l : List Variable) : (VariableArray.ofList l)._variableCount = l.length := rfl

lemma ofList_var (l : List Variable) (i : Nat) :
    (VariableArray.ofList l).var i = l.getD i default := rfl

/-- Propositional characterization of the forward scan in `isLastVarFromSensor`. -/
lemma isLast_iff (l : List Variable) (i : Nat) :
    (VariableArray.ofList l).isLastVarFromSensor i = true ↔
      ∀ j, i < j → j < l.length →
        sensorPair (l.getD i default) ≠ sensorPair (l.getD j default) := by
  unfold VariableArray.isLastVarFromSensor
  simp only [List.all_eq_true, List.mem_range'_1, ofList_count, ofList_var,
    Bool.not_eq_true', Bool.and_eq_false_iff, beq_eq_false_iff_ne, ne_eq, sensorPair,
    Prod.mk.injEq, not_and]
  constructor
  · intro h j hij hj hname hloc
    rcases h j ⟨by omega, by omega⟩ with h1 | h1
    · exact h1 hname
    · exact h1 hloc
  · intro h j hj
    by_cases hn : (l.getD i default).sensorName = (l.getD j default).sensorName
    · exact Or.inr fun hl => h j (by omega) (by omega) hn hl
    · exact Or.inl hn

/-- Any index from the last position on is canonical: the forward scan is empty. -/
lemma isLast_of_last (l : List Variable) (i : Nat) (h : l.length ≤ i + 1) :
    (VariableArray.ofList l).isLastVarFromSensor i = true := by
  rw [isLast_iff]
  intro j h1 h2
  omega

lemma isLast_cons_succ (v : Variable) (t : List Variable) (i : Nat) :
    (VariableArray.ofList (v :: t)).isLastVarFromSensor (i + 1) =
      (VariableArray.ofList t).isLastVarFromSensor i := by
  apply bool_eq_of_iff
  rw [isLast_iff, isLast_iff]
  constructor
  · intro h j hij hj
    have := h (j + 1) (by omega) (by simpa using Nat.succ_lt_succ hj)
    simpa [List.getD_cons_succ] using this
  · intro h j hij hj
    cases j with
    | zero => omega
    | succ j' =>
      have := h j' (by omega) (by simpa using hj)
      simpa [List.getD_cons_succ] using this

lemma isLast_cons_zero_iff (v : Variable) (t : List Variable) :
    (VariableArray.ofList (v :: t)).isLastVarFromSensor 0 = true ↔
      sensorPair v ∉ t.map sensorPair := by
  rw [isLast_iff]
  constructor
  · intro h hmem
    rw [List.mem_map] at hmem
    obtain ⟨w, hw, hpw⟩ := hmem
    obtain ⟨j, hj, rfl⟩ := List.mem_iff_getElem.mp hw
    exact h (j + 1) (by omega) (by simpa using Nat.succ_lt_succ hj)
      (by simp [List.getD_cons_succ, List.getD_eq_getElem t default hj,
        List.getElem?_eq_getElem hj, hpw])
  · intro h j h0 hj heq
    apply h
    rw [List.mem_map]
    cases j with
    | zero => omega
    | succ j' =>
      have hj' : j' < t.length := by simpa using hj
      refine ⟨t.getD j' default, ?_, ?_⟩
      · rw [List.getD_eq_getElem t default hj']
        exact List.getElem_mem hj'
      · simpa [List.getD_cons_succ] using heq.symm

/-! ### Helper lemmas: canonical indices -/

lemma canonIdx_nil : canonIdx [] = [] := rfl

lemma canonIdx_cons (v : Variable) (t : List Variable) :
    canonIdx (v :: t) =
      if sensorPair v ∈ t.map sensorPair then (canonIdx t).map Nat.succ
      else 0 :: (canonIdx t).map Nat.succ := by
  unfold canonIdx
  have hlen : (v :: t).length = t.length + 1 := rfl
  rw [hlen, List.range_succ_eq_map, List.filter_cons, List.filter_map]
  have hfun : ((fun i => (VariableArray.ofList (v :: t)).isLastVarFromSensor i) ∘ Nat.succ) =
      fun i => (VariableArray.ofList t).isLastVarFromSensor i := by
    funext i
    exact isLast_cons_succ v t i
  rw [hfun]
  by_cases h : sensorPair v ∈ t.map sensorPair
  · have h0 : (VariableArray.ofList (v :: t)).isLastVarFromSensor 0 = false := by
      rw [← Bool.not_eq_true, isLast_cons_zero_iff]
      simpa using h
    simp [h, h0]
  · have h0 : (VariableArray.ofList (v :: t)).isLastVarFromSensor 0 = true :=
      (isLast_cons_zero_iff v t).mpr h
    simp [h, h0]

/-- Splitting off the last (always canonical) index. -/
lemma canonIdx_concat (v : Variable) (t : List Variable) :
    canonIdx (v :: t) =
      ((List.range t.length).filter
        fun i => (VariableArray.ofList (v :: t)).isLastVarFromSensor i) ++ [t.length] := by
  unfold canonIdx
  have hlen : (v :: t).length = t.length + 1 := rfl
  rw [hlen, List.range_succ, List.filter_append]
  congr 1
  have : (VariableArray.ofList (v :: t)).isLastVarFromSensor t.length = true :=
    isLast_of_last (v :: t) t.length (by simp)
  simp [this]

lemma canonPairs_nil : canonPairs [] = [] := rfl

lemma canonPairs_cons (v : Variable) (t : List Variable) :
    canonPairs (v :: t) =
      if sensorPair v ∈ t.map sensorPair then canonPairs t
      else sensorPair v :: canonPairs t := by
  unfold canonPairs
  rw [canonIdx_cons]
  have htail : (canonIdx t).map
      ((fun i => sensorPair ((v :: t).getD i default)) ∘ Nat.succ) =
      (canonIdx t).map fun i => sensorPair (t.getD i default) := by
    apply List.map_congr_left
    intro i _
    simp [List.getD_cons_succ]
  by_cases h : sensorPair v ∈ t.map sensorPair
  · rw [if_pos h, if_pos h, List.map_map, htail]
  · rw [if_neg h, if_neg h, List.map_cons, List.map_map, htail]
    rfl

lemma canonPairs_subset (l : List Variable) : ∀ x ∈ canonPairs l, x ∈ l.map sensorPair := by
  induction l with
  | nil => simp [canonPairs_nil]
  | cons v t ih =>
    intro x hx
    rw [canonPairs_cons] at hx
    by_cases h : sensorPair v ∈ t.map sensorPair
    · rw [if_pos h] at hx
      simp only [List.map_cons, List.mem_cons]
      exact Or.inr (ih x hx)
    · rw [if_neg h] at hx
      rcases List.mem_cons.mp hx with h1 | h1
      · simp [h1]
      · simp only [List.map_cons, List.mem_cons]
        exact Or.inr (ih x h1)

lemma canonPairs_nodup (l : List Variable) : (canonPairs l).Nodup := by
  induction l with
  | nil => simp [canonPairs_nil]
  | cons v t ih =>
    rw [canonPairs_cons]
    by_cases h : sensorPair v ∈ t.map sensorPair
    · rwa [if_pos h]
    · rw [if_neg h]
      exact List.Nodup.cons (fun hmem => h (canonPairs_subset t _ hmem)) ih

lemma canonPairs_toFinset (l : List Variable) :
    (canonPairs l).toFinset = (l.map sensorPair).toFinset := by
  induction l with
  | nil => simp [canonPairs_nil]
  | cons v t ih =>
    rw [canonPairs_cons, List.map_cons, List.toFinset_cons]
    by_cases h : sensorPair v ∈ t.map sensorPair
    · rw [if_pos h, ih]
      exact (Finset.insert_eq_self.mpr (List.mem_toFinset.mpr h)).symm
    · rw [if_neg h, List.toFinset_cons, ih]

lemma canonIdx_length (l : List Variable) :
    (canonIdx l).length = (l.map sensorPair).toFinset.card := by
  induction l with
  | nil => simp [canonIdx_nil]
  | cons v t ih =>
    rw [canonIdx_cons, List.map_cons, List.toFinset_cons]
    by_cases h : sensorPair v ∈ t.map sensorPair
    · rw [if_pos h, List.length_map, ih,
        Finset.insert_eq_self.mpr (List.mem_toFinset.mpr h)]
    · rw [if_neg h, List.length_cons, List.length_map, ih,
        Finset.card_insert_of_not_mem (fun hm => h (List.mem_toFinset.mp hm))]

/-! ### Helper lemmas: generic loop bridges -/

lemma foldl_count (p : Nat → Bool) (xs : List Nat) (n0 : Nat) :
    xs.foldl (fun acc i => if p i then acc + 1 else acc) n0 = n0 + (xs.filter p).length := by
  induction xs generalizing n0 with
  | nil => simp
  | cons x xs ih =>
    by_cases h : p x <;> simp [List.filter_cons, h, ih] <;> omega

lemma foldl_and_trace (p f : Nat → Bool) (xs : List Nat) (b : Bool) (tr : List Nat) :
    xs.foldl (fun st i => if p i then (st.1 && f i, st.2 ++ [i]) else st) (b, tr) =
      (b && (xs.filter p).all f, tr ++ xs.filter p) := by
  induction xs generalizing b tr with
  | nil => simp
  | cons x xs ih =>
    by_cases h : p x
    · simp [h, List.filter_cons, ih, Bool.and_assoc]
    · simp [h, List.filter_cons, ih]

lemma foldl_overwrite_trace (p f : Nat → Bool) (xs : List Nat) (s u : Bool) (tr : List Nat) :
    xs.foldl (fun st i => if p i then (st.1, f i, st.2.2 ++ [i]) else st) (s, u, tr) =
      (s, (xs.filter p).foldl (fun _ i => f i) u, tr ++ xs.filter p) := by
  induction xs generalizing u tr with
  | nil => simp
  | cons x xs ih =>
    by_cases h : p x
    · simp [h, List.filter_cons, ih]
    · simp [h, List.filter_cons, ih]

lemma foldl_and (f : Nat → Bool) (xs : List Nat) (b : Bool) :
    xs.foldl (fun s i => s && f i) b = (b && xs.all f) := by
  induction xs generalizing b with
  | nil => simp
  | cons x xs ih =>
    rw [List.foldl_cons, ih, List.all_cons, ← Bool.and_assoc]

/-! ### Helper lemmas: the member functions in terms of canonical indices -/

lemma getSensorCount_eq (l : List Variable) :
    (VariableArray.ofList l).getSensorCount = 1 + (canonIdx l).length := by
  unfold VariableArray.getSensorCount
  rw [foldl_count]
  rfl

lemma sensorsSleep_eq (l : List Variable) (f : Nat → Bool) :
    (VariableArray.ofList l).sensorsSleep f = ((canonIdx l).all f, canonIdx l) := by
  unfold VariableArray.sensorsSleep
  rw [foldl_and_trace]
  simp only [Bool.true_and, List.nil_append]
  rfl

lemma sensorsWake_eq (l : List Variable) (f : Nat → Bool) :
    (VariableArray.ofList l).sensorsWake f = ((canonIdx l).all f, canonIdx l) := by
  unfold VariableArray.sensorsWake
  rw [foldl_and_trace]
  simp only [Bool.true_and, List.nil_append]
  rfl

lemma updateAllSensors_eq (l : List Variable) (f : Nat → Bool) :
    (VariableArray.ofList l).updateAllSensors f =
      ((canonIdx l).foldl (fun _ i => f i) true, canonIdx l) := by
  unfold VariableArray.updateAllSensors
  rw [foldl_overwrite_trace]
  simp only [Bool.true_and, List.nil_append]
  rfl

/-- On a non-empty array the overwrite fold ends at the last index, which is
always canonical. -/
lemma updateAllSensors_cons (v : Variable) (t : List Variable) (f : Nat → Bool) :
    ((VariableArray.ofList (v :: t)).updateAllSensors f).1 = f t.length := by
  rw [updateAllSensors_eq, canonIdx_concat, List.foldl_append]
  rfl

/-! ### Helper lemmas: CSV serialization -/

lemma map_range_getD (l : List Variable) :
    ((List.range l.length).map fun i => l.getD i default) = l := by
  induction l with
  | nil => rfl
  | cons v t ih =>
    have htail : ((List.range t.length).map ((fun i => (v :: t).getD i default) ∘ Nat.succ)) = t := by
      have h1 : ((List.range t.length).map ((fun i => (v :: t).getD i default) ∘ Nat.succ)) =
          (List.range t.length).map fun i => t.getD i default := by
        apply List.map_congr_left
        intro i _
        simp [List.getD_cons_succ]
      rw [h1, ih]
    rw [show (v :: t).length = t.length + 1 from rfl, List.range_succ_eq_map, List.map_cons,
      List.map_map, htail]
    rfl

lemma csv_foldl_pull (g : Nat → String) (xs : List Nat) (a : String) :
    xs.foldl (fun c i => c ++ g i) a = a ++ xs.foldl (fun c i => c ++ g i) "" := by
  induction xs generalizing a with
  | nil => exact (String.append_empty a).symm
  | cons x xs ih =>
    rw [List.foldl_cons, List.foldl_cons, ih (a ++ g x), ih ("" ++ g x), String.empty_append,
      String.append_assoc]

lemma csv_join (vals : Nat → String) (n : Nat) :
    (List.range n).foldl (fun c i => c ++ (vals i ++ if i + 1 ≠ n then ", " else "")) "" =
      serializeValuesCSVSpec ((List.range n).map vals) := by
  induction n generalizing vals with
  | zero => rfl
  | succ n ih =>
    cases n with
    | zero =>
      simp [serializeValuesCSVSpec, List.range_succ, String.empty_append, String.append_empty]
    | succ m =>
      rw [List.range_succ_eq_map, List.foldl_cons, List.foldl_map]
      have h1 : ("" ++ (vals 0 ++ if (0 : Nat) + 1 ≠ m + 1 + 1 then ", " else "")) =
          vals 0 ++ ", " := by
        rw [if_pos (by omega), String.empty_append]
      rw [h1]
      have h2 : (fun (c : String) (k : Nat) =>
          c ++ (vals (Nat.succ k) ++ if Nat.succ k + 1 ≠ m + 1 + 1 then ", " else "")) =
          fun (c : String) (k : Nat) =>
            c ++ ((vals ∘ Nat.succ) k ++ if k + 1 ≠ m + 1 then ", " else "") := by
        funext c k
        have hiff : (Nat.succ k + 1 ≠ m + 1 + 1) ↔ (k + 1 ≠ m + 1) :=
          Iff.intro (fun h hk => h (by omega)) (fun h hk => h (by omega))
        rw [if_congr hiff rfl rfl]
        rfl
      rw [h2, csv_foldl_pull, ih (vals ∘ Nat.succ), List.map_cons, List.map_map]
      have hne : ((List.range (m + 1)).map (vals ∘ Nat.succ)) ≠ [] := by
        simp [List.range_succ_eq_map]
      show vals 0 ++ ", " ++ _ = serializeValuesCSVSpec (vals 0 :: _)
      simp only [serializeValuesCSVSpec, if_neg hne]
      rw [String.append_assoc]

lemma generateSensorDataCSV_eq (l : List Variable) :
    (VariableArray.ofList l).generateSensorDataCSV =
      serializeValuesCSVSpec (l.map Variable.valueString) := by
  unfold VariableArray.generateSensorDataCSV
  have hstep : (fun (csvString : String) (i : Nat) =>
      let csvString := csvString ++ ((VariableArray.ofList l).var i).valueString
      if i + 1 ≠ (VariableArray.ofList l)._variableCount then csvString ++ ", " else csvString) =
      fun (c : String) (i : Nat) =>
        c ++ ((fun j => (l.getD j default).valueString) i ++
          if i + 1 ≠ l.length then ", " else "") := by
    funext c i
    show (let c' := c ++ (l.getD i default).valueString
      if i + 1 ≠ l.length then c' ++ ", " else c') = _
    by_cases h : i + 1 ≠ l.length
    · simp only [if_pos h, String.append_assoc]
    · simp only [if_neg h, String.append_empty]
  rw [hstep]
  rw [show (List.range (VariableArray.ofList l)._variableCount) = List.range l.length from rfl]
  rw [csv_join]
  congr 1
  rw [show (fun j => (l.getD j default).valueString) =
    Variable.valueString ∘ (fun j => l.getD j default) from rfl]
  rw [← List.map_map, map_range_getD]

/-! ### Helper lemmas: the setup loop when every setup call succeeds -/

lemma setupWhile_success (out : Nat → Bool) (h : out 0 = true) (ss : Bool) :
    setupWhile out 5 ss 0 0 = (true, 0, 1) := by
  simp [setupWhile, h]

lemma setup_first_all_success (out : Nat → Nat → Bool) (h : ∀ i k, out i k = true)
    (xs : List Nat) (s ss : Bool) (cs : List (Nat × Nat)) :
    ∃ ssf : Bool,
      xs.foldl (fun (st : Bool × Bool × Nat × List (Nat × Nat)) i =>
          let w := setupWhile (out i) 5 st.2.1 st.2.2.1 0
          (st.1 && w.1, w.1, w.2.1, st.2.2.2 ++ (List.range w.2.2).map fun c => (i, c)))
        (s, ss, 0, cs) =
      (s, ssf, 0, cs ++ xs.map fun i => (i, 0)) := by
  induction xs generalizing ss cs with
  | nil => exact ⟨ss, by simp⟩
  | cons x xs ih =>
    rw [List.foldl_cons]
    obtain ⟨ssf, hf⟩ := ih true (cs ++ [(x, 0)])
    refine ⟨ssf, ?_⟩
    simp only [setupWhile_success (out x) (h x 0), Bool.and_true]
    rw [show (List.range 1).map (fun c => (x, c)) = [(x, 0)] from rfl]
    rw [hf]
    simp

lemma setupSensors_all_success (l : List Variable) (out : Nat → Nat → Bool)
    (attach : Nat → Bool) (h : ∀ i k, out i k = true) :
    (VariableArray.ofList l).setupSensors out attach =
      ((List.range l.length).all attach,
        (List.range l.length).map fun i => (i, 0),
        List.range l.length) := by
  obtain ⟨ssf, hf⟩ :=
    setup_first_all_success out h (List.range (VariableArray.ofList l)._variableCount)
      true false []
  unfold VariableArray.setupSensors
  rw [hf]
  simp only [foldl_and, Bool.true_and, List.nil_append]
  rfl

/-! ### Helper lemmas: only the first `_variableCount` entries are observable -/

lemma isLast_congr (a b : VariableArray) (hc : a._variableCount = b._variableCount)
    (hv : ∀ i, i < a._variableCount → a.var i = b.var i) (i : Nat) :
    a.isLastVarFromSensor i = b.isLastVarFromSensor i := by
  unfold VariableArray.isLastVarFromSensor
  rw [← hc]
  by_cases hi : i + 1 < a._variableCount
  · rw [hv i (by omega)]
    apply bool_eq_of_iff
    rw [List.all_eq_true, List.all_eq_true]
    constructor
    · intro hall j hj
      have hj' := List.mem_range'_1.mp hj
      rw [← hv j (by omega)]
      exact hall j hj
    · intro hall j hj
      have hj' := List.mem_range'_1.mp hj
      rw [hv j (by omega)]
      exact hall j hj
  · have h0 : a._variableCount - (i + 1) = 0 := by omega
    rw [h0]
    rfl

lemma getSensorCount_congr (a b : VariableArray) (hc : a._variableCount = b._variableCount)
    (hv : ∀ i, i < a._variableCount → a.var i = b.var i) :
    a.getSensorCount = b.getSensorCount := by
  unfold VariableArray.getSensorCount
  rw [← hc]
  apply List.foldl_ext
  intro acc i _
  rw [isLast_congr a b hc hv]

lemma sensorsSleep_congr (a b : VariableArray) (hc : a._variableCount = b._variableCount)
    (hv : ∀ i, i < a._variableCount → a.var i = b.var i) (f : Nat → Bool) :
    a.sensorsSleep f = b.sensorsSleep f := by
  unfold VariableArray.sensorsSleep
  rw [← hc]
  apply List.foldl_ext
  intro st i _
  rw [isLast_congr a b hc hv]

lemma sensorsWake_congr (a b : VariableArray) (hc : a._variableCount = b._variableCount)
    (hv : ∀ i, i < a._variableCount → a.var i = b.var i) (f : Nat → Bool) :
    a.sensorsWake f = b.sensorsWake f := by
  unfold VariableArray.sensorsWake
  rw [← hc]
  apply List.foldl_ext
  intro st i _
  rw [isLast_congr a b hc hv]

lemma updateAllSensors_congr (a b : VariableArray) (hc : a._variableCount = b._variableCount)
    (hv : ∀ i, i < a._variableCount → a.var i = b.var i) (f : Nat → Bool) :
    a.updateAllSensors f = b.updateAllSensors f := by
  unfold VariableArray.updateAllSensors
  rw [← hc]
  have : ∀ (st : Bool × Bool × List Nat) (i : Nat), i ∈ List.range a._variableCount →
      (if a.isLastVarFromSensor i then (st.1, f i, st.2.2 ++ [i]) else st) =
      (if b.isLastVarFromSensor i then (st.1, f i, st.2.2 ++ [i]) else st) := by
    intro st i _
    rw [isLast_congr a b hc hv]
  rw [List.foldl_ext _ _ _ this]

lemma generateSensorDataCSV_congr (a b : VariableArray)
    (hc : a._variableCount = b._variableCount)
    (hv : ∀ i, i < a._variableCount → a.var i = b.var i) :
    a.generateSensorDataCSV = b.generateSensorDataCSV := by
  unfold VariableArray.generateSensorDataCSV
  rw [← hc]
  apply List.foldl_ext
  intro c i hi
  have hi' : i < a._variableCount := List.mem_range.mp hi
  rw [hv i hi', hc]

lemma getD_take (L : List Variable) (n i : Nat) (h : i < n) :
    (L.take n).getD i default = L.getD i default := by
  rw [List.getD_eq_getElem?_getD, List.getD_eq_getElem?_getD, List.getElem?_take]
  rw [if_pos h]

/-! ### Claim theorems -/

/-- Claim C1: `isLastVarFromSensor(i)` returns true iff no later index `j > i`
refers to a sensor with the same (name, location) pair; in particular the last
index of any non-empty array — and hence the sole index of a single-element
array — is canonical. -/
theorem C1_isLastVarFromSensor_contract (l : List Variable) (i : Nat) (h : i < l.length) :
    ((VariableArray.ofList l).isLastVarFromSensor i = true ↔
      ∀ j, i < j → j < l.length →
        sensorPair (l.getD i default) ≠ sensorPair (l.getD j default)) ∧
    (VariableArray.ofList l).isLastVarFromSensor (l.length - 1) = true :=
  ⟨isLast_iff l i, isLast_of_last l (l.length - 1) (by omega)⟩

/-- Witness for C1 at the single-element array: its sole index 0 is canonical
and the characterization holds there. -/
theorem C1_isLastVarFromSensor_contract_witness :
    (0 < ([⟨"S", "L", "v1"⟩] : List Variable).length) ∧
    (((VariableArray.ofList [⟨"S", "L", "v1"⟩]).isLastVarFromSensor 0 = true ↔
      ∀ j, 0 < j → j < ([⟨"S", "L", "v1"⟩] : List Variable).length →
        sensorPair (([⟨"S", "L", "v1"⟩] : List Variable).getD 0 default) ≠
          sensorPair (([⟨"S", "L", "v1"⟩] : List Variable).getD j default)) ∧
    (VariableArray.ofList [⟨"S", "L", "v1"⟩]).isLastVarFromSensor
      (([⟨"S", "L", "v1"⟩] : List Variable).length - 1) = true) :=
  ⟨by decide, C1_isLastVarFromSensor_contract [⟨"S", "L", "v1"⟩] 0 (by decide)⟩

/-- Claim C2 (code defect): `setupTries` is initialized once before the outer
loop of `setupSensors` and never reset, so the 5-attempt retry budget is
shared by the whole array instead of fresh per handle.  First conjunct: in a
two-variable array whose first sensor always fails and whose second always
succeeds, all five attempts are spent on handle 0, handle 1's setup is never
called (no `(1, k)` entry in the call log) and the function reports failure —
a fresh budget would have set handle 1 up.  The remaining conjuncts show the
claimed behaviour does hold for the first handle, whose budget is fresh: a
sensor failing 4 times then succeeding on the 5th attempt is reported set up,
and one failing all 5 attempts is reported failed. -/
theorem C2_setup_retry_budget_shared :
    (VariableArray.ofList [⟨"A", "1", "a"⟩, ⟨"B", "2", "b"⟩]).setupSensors
        (fun i _ => decide (i = 1)) (fun _ => true) =
      (false, [(0, 0), (0, 1), (0, 2), (0, 3), (0, 4)], [0, 1]) ∧
    (VariableArray.ofList [⟨"A", "1", "a"⟩]).setupSensors
        (fun _ k => decide (k = 4)) (fun _ => true) =
      (true, [(0, 0), (0, 1), (0, 2), (0, 3), (0, 4)], [0]) ∧
    (VariableArray.ofList [⟨"A", "1", "a"⟩]).setupSensors
        (fun _ _ => false) (fun _ => true) =
      (false, [(0, 0), (0, 1), (0, 2), (0, 3), (0, 4)], [0]) := by
  decide

/-- Claim C3 counterexample: on the 3-variable array where variables 1 and 2
share a sensor and variable 3 has a distinct one, with every underlying setup
call succeeding, `setupSensors` issues 3 sensor-setup calls — one per handle,
as the source comment says — not 2 (one per distinct pair). -/
theorem C3_setup_calls_counterexample :
    ((VariableArray.ofList [⟨"S", "L", "v1"⟩, ⟨"S", "L", "v2"⟩, ⟨"T", "M", "v3"⟩]).setupSensors
        (fun _ _ => true) (fun _ => true)).2.1.length ≠ 2 ∧
    ((VariableArray.ofList [⟨"S", "L", "v1"⟩, ⟨"S", "L", "v2"⟩, ⟨"T", "M", "v3"⟩]).setupSensors
        (fun _ _ => true) (fun _ => true)).2.1 = [(0, 0), (1, 0), (2, 0)] := by
  decide

/-- Claim C3 (amended): absent retries — every underlying setup call succeeds —
`setupSensors` issues the sensor-setup call exactly once per handle (duplicate
sensors included), not once per distinct (name, location) pair, and issues the
attach call exactly once per handle: 3 setup calls and 3 attach calls for any
3-variable array. -/
theorem C3_setup_once_per_handle (l : List Variable) (out : Nat → Nat → Bool)
    (attach : Nat → Bool) (h : ∀ i k, out i k = true) :
    ((VariableArray.ofList l).setupSensors out attach).2.1 =
        ((List.range l.length).map fun i => (i, 0)) ∧
    ((VariableArray.ofList l).setupSensors out attach).2.2 = List.range l.length := by
  constructor
  · rw [setupSensors_all_success l out attach h]
  · rw [setupSensors_all_success l out attach h]

/-- Witness for the amended C3 on the 3-variable shared-sensor array: exactly
3 setup calls (one per handle) and 3 attach calls. -/
theorem C3_setup_once_per_handle_witness :
    (∀ i k : Nat, ((fun _ _ => true) : Nat → Nat → Bool) i k = true) ∧
    (((VariableArray.ofList [⟨"S", "L", "v1"⟩, ⟨"S", "L", "v2"⟩, ⟨"T", "M", "v3"⟩]).setupSensors
        (fun _ _ => true) (fun _ => true)).2.1 =
      ((List.range ([⟨"S", "L", "v1"⟩, ⟨"S", "L", "v2"⟩, ⟨"T", "M", "v3"⟩] :
        List Variable).length).map fun i => (i, 0)) ∧
    ((VariableArray.ofList [⟨"S", "L", "v1"⟩, ⟨"S", "L", "v2"⟩, ⟨"T", "M", "v3"⟩]).setupSensors
        (fun _ _ => true) (fun _ => true)).2.2 =
      List.range ([⟨"S", "L", "v1"⟩, ⟨"S", "L", "v2"⟩, ⟨"T", "M", "v3"⟩] :
        List Variable).length) :=
  ⟨fun _ _ => rfl,
    C3_setup_once_per_handle [⟨"S", "L", "v1"⟩, ⟨"S", "L", "v2"⟩, ⟨"T", "M", "v3"⟩]
      (fun _ _ => true) (fun _ => true) (fun _ _ => rfl)⟩

/-- Claim C4: `updateAllSensors` issues the underlying update exactly once per
canonical index (its call log is exactly the duplicate-free list of canonical
indices), and its returned status equals the update result of the last
canonical sensor alone — the array's last index, which is always canonical:
true whenever that final update succeeds regardless of earlier failures
(concrete conjunct: two distinct sensors, first update fails, second succeeds,
result true), and true for the empty array. -/
theorem C4_updateAllSensors_last_result_only (l : List Variable) (f : Nat → Bool) :
    ((VariableArray.ofList l).updateAllSensors f).2 = canonIdx l ∧
    (canonIdx l).Nodup ∧
    (∀ (v : Variable) (t : List Variable) (g : Nat → Bool),
      ((VariableArray.ofList (v :: t)).updateAllSensors g).1 = g t.length) ∧
    ((VariableArray.ofList ([] : List Variable)).updateAllSensors f).1 = true ∧
    ((VariableArray.ofList [⟨"S", "L", "v1"⟩, ⟨"T", "M", "v2"⟩]).updateAllSensors
      (fun i => decide (i = 1))).1 = true := by
  refine ⟨?_, ?_, ?_, rfl, by decide⟩
  · rw [updateAllSensors_eq]
  · exact List.Nodup.filter _ (List.nodup_range _)
  · intro v t g
    exact updateAllSensors_cons v t g

/-- Claim C5: `getSensorCount` counts the canonical indices with its counter
seeded at 1: the result is 1 plus the number of canonical indices, which — as
every distinct (name, location) pair has exactly one canonical index — equals
the number of distinct sensors plus 1, and 1 for the empty array. -/
theorem C5_getSensorCount_bias (l : List Variable) :
    (VariableArray.ofList l).getSensorCount = 1 + (canonIdx l).length ∧
    (VariableArray.ofList l).getSensorCount = (l.map sensorPair).toFinset.card + 1 ∧
    (VariableArray.ofList ([] : List Variable)).getSensorCount = 1 :=
  ⟨getSensorCount_eq l, by rw [getSensorCount_eq, canonIdx_length]; omega, rfl⟩

/-- Claim C6 (code defect): the attach second pass and the and-aggregation do
behave as claimed — in the run below every handle's attach step is invoked
exactly once (`[0, 1, 2]`) even though setup failed — but "a failure does not
stop the remaining sensors from being attempted" fails on the code: with three
distinct sensors of which sensor 0 always fails while sensors 1 and 2 would
always succeed, the shared retry budget is exhausted on handle 0 and handles 1
and 2 receive no sensor-setup call at all (the call log holds only `(0, k)`
entries), while the overall result is false. -/
theorem C6_attach_pass_and_skipped_sensors :
    (VariableArray.ofList [⟨"A", "1", "a"⟩, ⟨"B", "2", "b"⟩, ⟨"C", "3", "c"⟩]).setupSensors
        (fun i _ => decide (1 ≤ i)) (fun _ => true) =
      (false, [(0, 0), (0, 1), (0, 2), (0, 3), (0, 4)], [0, 1, 2]) := by
  decide

/-- Claim C7: `sensorsSleep` and `sensorsWake` issue the underlying call
exactly once per canonical sensor — the call log is exactly the list of
canonical indices, whose (name, location) pairs are pairwise distinct and
cover every pair occurring in the array — and each returns the conjunction of
all per-sensor results, hence true for the empty array. -/
theorem C7_sleep_wake_dedup_conjunction (l : List Variable) (f g : Nat → Bool) :
    (VariableArray.ofList l).sensorsSleep f = ((canonIdx l).all f, canonIdx l) ∧
    (VariableArray.ofList l).sensorsWake g = ((canonIdx l).all g, canonIdx l) ∧
    (canonPairs l).Nodup ∧
    (canonPairs l).toFinset = (l.map sensorPair).toFinset ∧
    ((VariableArray.ofList ([] : List Variable)).sensorsSleep f).1 = true ∧
    ((VariableArray.ofList ([] : List Variable)).sensorsWake g).1 = true :=
  ⟨sensorsSleep_eq l f, sensorsWake_eq l g, canonPairs_nodup l, canonPairs_toFinset l,
    rfl, rfl⟩

/-- Claim C8: `generateSensorDataCSV` concatenates every handle's value string
in array order — duplicate-sensor handles included — separated by the exact
two-character string `", "` with no trailing separator, and yields the empty
string for the empty array: it equals the spec's `serializeValuesCSV` shape on
the value strings, and on a 3-variable array whose first two variables share a
sensor it yields `"v1, v2, v3"`. -/
theorem C8_generateSensorDataCSV_shape (l : List Variable) :
    (VariableArray.ofList l).generateSensorDataCSV =
        serializeValuesCSVSpec (l.map Variable.valueString) ∧
    (VariableArray.ofList ([] : List Variable)).generateSensorDataCSV = "" ∧
    (VariableArray.ofList
        [⟨"S", "L", "v1"⟩, ⟨"S", "L", "v2"⟩, ⟨"T", "M", "v3"⟩]).generateSensorDataCSV =
      "v1, v2, v3" :=
  ⟨generateSensorDataCSV_eq l, rfl, by decide⟩

/-- Claim C9 (interval scheduler; the check bodies are modelled from the spec
since `LoggerBase.h` only declares them): `checkInterval` and
`checkMarkedInterval` are true iff the current (respectively marked) epoch time
modulo the interval length in seconds is zero, or the current time is within
the first 15 minutes since logging started; the corrected epoch adds
`EPOCH_TIME_OFF` — which equals `946684800`, exactly the number of seconds from
1970-01-01 00:00:00 to 2000-01-01 00:00:00 — plus the timezone and RTC offsets
before any interval test. -/
theorem C9_interval_checks_and_epoch_offset (rtc : Nat) (tz off : Int) (m : Nat)
    (start marked : Int) :
    (checkInterval (getNowEpoch rtc tz off) m start = true ↔
      (getNowEpoch rtc tz off % ((m : Int) * 60) = 0 ∨
        getNowEpoch rtc tz off - start < 15 * 60)) ∧
    (checkMarkedInterval marked (getNowEpoch rtc tz off) m start = true ↔
      (marked % ((m : Int) * 60) = 0 ∨ getNowEpoch rtc tz off - start < 15 * 60)) ∧
    getNowEpoch rtc tz off = (rtc : Int) + 946684800 + tz * 3600 + off * 3600 ∧
    EPOCH_TIME_OFF = 946684800 ∧
    EPOCH_TIME_OFF = secondsFrom1970To2000 := by
  refine ⟨?_, ?_, rfl, rfl, by decide⟩
  · unfold checkInterval
    rw [Bool.or_eq_true, decide_eq_true_iff, decide_eq_true_iff]
  · unfold checkMarkedInterval
    rw [Bool.or_eq_true, decide_eq_true_iff, decide_eq_true_iff]

/-- Claim C10: `init` stores the variable count in an 8-bit field, so the
stored count and `getVariableCount` equal the given count modulo 256 (counts
of 256 or more are silently truncated — 300 becomes 44 — while non-negative
counts below 256 are stored faithfully), and, whenever the stored count does
not exceed the backing list's length, every member loop behaves exactly as on
the well-formed array over only the first `count mod 256` variables; the
attach loop of `setupSensors` visits exactly the indices below the stored
count. -/
theorem C10_variableCount_mod_256 (x : Int) (L : List Variable)
    (h : (x % 256).toNat ≤ L.length) :
    (VariableArray.init x L)._variableCount = (x % 256).toNat ∧
    (VariableArray.init x L).getVariableCount = (x % 256).toNat ∧
    (x % 256).toNat < 256 ∧
    (0 ≤ x → x < 256 → (VariableArray.init x L)._variableCount = x.toNat) ∧
    (VariableArray.init (300 : Int) L)._variableCount = 44 ∧
    (VariableArray.init x L).getSensorCount =
      (VariableArray.ofList (L.take ((x % 256).toNat))).getSensorCount ∧
    (∀ f, (VariableArray.init x L).sensorsSleep f =
      (VariableArray.ofList (L.take ((x % 256).toNat))).sensorsSleep f) ∧
    (∀ f, (VariableArray.init x L).sensorsWake f =
      (VariableArray.ofList (L.take ((x % 256).toNat))).sensorsWake f) ∧
    (∀ f, (VariableArray.init x L).updateAllSensors f =
      (VariableArray.ofList (L.take ((x % 256).toNat))).updateAllSensors f) ∧
    (VariableArray.init x L).generateSensorDataCSV =
      (VariableArray.ofList (L.take ((x % 256).toNat))).generateSensorDataCSV ∧
    (∀ out attach, ((VariableArray.init x L).setupSensors out attach).2.2 =
      List.range ((x % 256).toNat)) := by
  have hmod : 0 ≤ x % 256 := Int.emod_nonneg x (by norm_num)
  have hlt : x % 256 < 256 := Int.emod_lt_of_pos x (by norm_num)
  have hc : (VariableArray.init x L)._variableCount =
      (VariableArray.ofList (L.take ((x % 256).toNat)))._variableCount := by
    show (x % 256).toNat = (L.take ((x % 256).toNat)).length
    rw [List.length_take]
    omega
  have hv : ∀ i, i < (VariableArray.init x L)._variableCount →
      (VariableArray.init x L).var i =
        (VariableArray.ofList (L.take ((x % 256).toNat))).var i := by
    intro i hi
    show L.getD i default = (L.take ((x % 256).toNat)).getD i default
    exact (getD_take L _ i hi).symm
  refine ⟨rfl, rfl, by omega, ?_, ?_, ?_, ?_, ?_, ?_, ?_, fun out attach => rfl⟩
  · intro h0 h256
    show (x % 256).toNat = x.toNat
    rw [Int.emod_eq_of_lt h0 h256]
  · show ((300 : Int) % 256).toNat = 44
    decide
  · exact getSensorCount_congr _ _ hc hv
  · exact fun f => sensorsSleep_congr _ _ hc hv f
  · exact fun f => sensorsWake_congr _ _ hc hv f
  · exact fun f => updateAllSensors_congr _ _ hc hv f
  · exact generateSensorDataCSV_congr _ _ hc hv

/-- Witness for C10 at count 300 over a 300-element list: the hypothesis holds
and the stored count is 44 = 300 mod 256. -/
theorem C10_variableCount_mod_256_witness :
    (((300 : Int) % 256).toNat ≤ (List.replicate 300 (default : Variable)).length) ∧
    (VariableArray.init 300 (List.replicate 300 (default : Variable)))._variableCount =
      ((300 : Int) % 256).toNat :=
  ⟨by decide, (C10_variableCount_mod_256 300 (List.replicate 300 default) (by decide)).1⟩
